import Mathlib

/-!
Verification development for the zeus-ai-service repository.

The Python source under `src/zeus-ai-service/` is shallowly embedded below:
pure functions become Lean functions, the Supabase store becomes explicit
data (lists of rows) threaded through operations, timestamps become natural
numbers counted in days, and monetary amounts become integers (the claims
under study do not depend on float arithmetic).  Randomly generated
order/quotation/policy numbers are passed in as parameters.
-/

namespace Zeus

/-! ## String helpers (embedding Python string operations)

`containsCI hay needle` embeds the SQL `ilike "%needle%"` filter used by
`_run_query` in `tools/quotation_db_tool.py`: case-insensitive substring
containment. -/

def lowerChars (s : String) : List Char :=
  s.toList.map Char.toLower

def leadsWith : List Char → List Char → Bool
  | [], _ => true
  | _ :: _, [] => false
  | a :: as, b :: bs => a == b && leadsWith as bs

def occursIn (needle : List Char) : List Char → Bool
  | [] => needle.isEmpty
  | h :: t => leadsWith needle (h :: t) || occursIn needle t

def containsCI (hay needle : String) : Bool :=
  occursIn (lowerChars needle) (lowerChars hay)

/-! Embedding of `_clean_sub_model` from `tools/quotation_db_tool.py`:

    re.sub(r.\b(19|20)\d{2}\b., .., sub_model).strip().strip(.-.).strip()

The regex removes every 4-digit token starting `19` or `20` delimited by
word boundaries.  `subYears prev cs` scans `cs` left to right, `prev`
holding the previously scanned character (for the left word boundary). -/

def isWordChar (c : Char) : Bool :=
  c.isAlphanum || c == '_'

def boundaryBefore (prev : Option Char) : Bool :=
  match prev with
  | none => true
  | some c => !isWordChar c

def boundaryAfter (rest : List Char) : Bool :=
  match rest with
  | [] => true
  | c :: _ => !isWordChar c

def yearStart (c1 c2 : Char) : Bool :=
  (c1 == '1' && c2 == '9') || (c1 == '2' && c2 == '0')

def subYears (prev : Option Char) : List Char → List Char
  | [] => []
  | c1 :: c2 :: c3 :: c4 :: rest =>
    if boundaryBefore prev && yearStart c1 c2 && c3.isDigit && c4.isDigit
        && boundaryAfter rest then
      subYears (some c4) rest
    else
      c1 :: subYears (some c1) (c2 :: c3 :: c4 :: rest)
  | c :: rest => c :: subYears (some c) rest

def dropEndWhile (p : Char → Bool) (l : List Char) : List Char :=
  (l.reverse.dropWhile p).reverse

def stripBoth (p : Char → Bool) (l : List Char) : List Char :=
  dropEndWhile p (l.dropWhile p)

/-- Embeds Python `.strip()` (trim surrounding whitespace). -/
def pyStrip (l : List Char) : List Char :=
  stripBoth (fun c => c.isWhitespace) l

/-- Embeds Python `.strip(~-~)` where the argument is the dash character. -/
def stripDash (l : List Char) : List Char :=
  stripBoth (fun c => c == '-') l

def clean_sub_model (s : String) : String :=
  String.mk (pyStrip (stripDash (pyStrip (subYears none s.toList))))

/-! ## Python truthiness on optional arguments

`search_quotation_details` tests `if not any([brand, model, sub_model, year])`
and `_run_query` guards each filter with `if b:` — Python truthiness, under
which `None`, the empty string, and `0` are all false. -/

def truthyS : Option String → Bool
  | none => false
  | some s => !(s == "")

def truthyN : Option Nat → Bool
  | none => false
  | some n => !(n == 0)

/-- Python `x or ~~` on an optional string (used by the attempt-4 message). -/
def orEmpty : Option String → String
  | none => ""
  | some s => s

/-! ## The vw_quotation_details view -/

/-- One row of the `vw_quotation_details` view (read-only reference data). -/
structure ViewRow where
  car_model_id : Nat
  plan_id : Nat
  brand : String
  model : String
  sub_model : String
  year : Nat
  car_estimated_price : Int
  plan_type : String
  plan_name : String
  insurer_name : String
  base_premium : Int
  deductible : Int
deriving Repr, DecidableEq

/-- Embedding of the inner `_run_query(b, m, s, y)` of
`search_quotation_details`: each filter is applied only when the
corresponding argument is truthy; string filters are case-insensitive
substring matches (`ilike`), the year filter is exact equality (`eq`). -/
def run_query (view : List ViewRow) (b m s : Option String) (y : Option Nat) :
    List ViewRow :=
  view.filter (fun r =>
    (if truthyS b then containsCI r.brand (orEmpty b) else true) &&
    (if truthyS m then containsCI r.model (orEmpty m) else true) &&
    (if truthyS s then containsCI r.sub_model (orEmpty s) else true) &&
    (if truthyN y then r.year == (y.getD 0) else true))

/-- Result payload of `search_quotation_details`: a bare error message, a
non-empty record set with its distinguishing message, or the full
catalogue (brand, model, sub_model, year columns only). -/
inductive SearchResult where
  | err (msg : String)
  | found (msg : String) (records : List ViewRow)
  | catalogue (msg : String) (records : List (String × String × String × Nat))
deriving Repr, DecidableEq

/-- Embedding of `search_quotation_details` from
`tools/quotation_db_tool.py` (lines 16-125): validation of
all-falsy input, defensive year-cleaning of `sub_model`, then the
six-step escalating fallback cascade, each step returning at the first
non-empty result. -/
def search_quotation_details (view : List ViewRow)
    (brand model sub_model : Option String) (year : Option Nat) :
    SearchResult :=
  if !(truthyS brand || truthyS model || truthyS sub_model || truthyN year) then
    .err "Error: You must provide at least one of brand, model, sub_model, or year."
  else
    -- Clean year accidentally put into sub_model by LLM
    let sub_model := if truthyS sub_model
      then some (clean_sub_model (orEmpty sub_model)) else sub_model
    -- Attempt 1: Full exact search
    let d1 := run_query view brand model sub_model year
    if !d1.isEmpty then
      .found "Found quotation details." d1
    else
      -- Attempt 2: Drop year constraint
      let d2 := run_query view brand model sub_model none
      if truthyN year && !d2.isEmpty then
        .found "Found quotation details (year relaxed)." d2
      else
        -- Attempt 3: Drop sub_model constraint
        let d3 := run_query view brand model none year
        if truthyS sub_model && !d3.isEmpty then
          .found ("No exact match for sub_model \x27" ++ orEmpty sub_model ++
            "\x27. Here are available trims — pick the closest one.") d3
        else
          -- Attempt 4: Brand + model only
          let d4 := run_query view brand model none none
          if (truthyS brand || truthyS model) && !d4.isEmpty then
            .found ("Could not match \x27" ++ orEmpty sub_model ++
              "\x27 trim. Here are all available variants for " ++
              orEmpty brand ++ " " ++ orEmpty model ++ ".") d4
          else
            -- Attempt 5: Brand only
            let d5 := run_query view brand none none none
            if truthyS brand && !d5.isEmpty then
              .found ("Could not find exact model. Here are all available " ++
                orEmpty brand ++ " vehicles.") d5
            else
              -- Last resort: return full catalogue
              .catalogue
                "No matching vehicle found. Here is the full catalogue to help you select the correct car."
                (view.map (fun r => (r.brand, r.model, r.sub_model, r.year)))

/-! ## Quotation / Order data model

Timestamps are natural numbers counted in days (`datetime.now()` becomes a
`now : Nat` argument; `timedelta(days=k)` becomes `+ k`).  Row ids are
allocated by per-table counters standing for the store's id generation. -/

structure Quotation where
  id : Nat
  session_id : String
  car_model_id : Nat
  plan_id : Nat
  customer_name : Option String
  customer_email : Option String
  customer_phone : Option String
  car_estimated_price : Int
  base_premium : Int
  deductible : Int
  total_premium : Int
  quotation_number : String
  valid_until : Nat
  status : String
deriving Repr, DecidableEq

structure Order where
  id : Nat
  quotation_id : Nat
  order_number : String
  payment_status : String
  payment_method : String
  policy_number : String
  policy_start_date : Nat
  policy_end_date : Nat
  policy_status : String
  payment_date : Option Nat
  updated_at : Option Nat
deriving Repr, DecidableEq

/-- The relevant tables of the Supabase store. -/
structure DB where
  view : List ViewRow
  quotations : List Quotation
  orders : List Order
  nextQuotationId : Nat
  nextOrderId : Nat
deriving Repr, DecidableEq

/-- The structured JSON payload returned by the quotation/order tools,
projected to the fields the specification talks about. -/
structure ToolPayload where
  success : Bool
  result : String
  order : Option Order
deriving Repr, DecidableEq

/-! ## create_quotation (tools/create_quotation_tool.py) -/

structure QuotationPayload where
  success : Bool
  result : String
  quotation : Option Quotation
deriving Repr, DecidableEq

/-- Embedding of `create_quotation` (lines 19-148): fetches the joined
vehicle+plan row; on success writes one new Quotation with
`valid_until = now + 30` days and status `"draft"`.  The randomly
generated quotation number arrives as the `quotation_number` argument. -/
def create_quotation (db : DB) (now : Nat) (session_id : String)
    (car_model_id plan_id : Nat)
    (customer_name customer_email customer_phone : Option String)
    (quotation_number : String) : DB × QuotationPayload :=
  match (db.view.filter (fun r =>
      r.car_model_id == car_model_id && r.plan_id == plan_id)).head? with
  | none =>
    (db, ⟨false,
      "Error: Could not find the selected car and plan combination. Please verify the IDs.",
      none⟩)
  | some details =>
    let valid_until := now + 30  -- Valid for 30 days
    let total_premium := details.base_premium
    let q : Quotation :=
      { id := db.nextQuotationId
        session_id := session_id
        car_model_id := car_model_id
        plan_id := plan_id
        customer_name := customer_name
        customer_email := customer_email
        customer_phone := customer_phone
        car_estimated_price := details.car_estimated_price
        base_premium := details.base_premium
        deductible := details.deductible
        total_premium := total_premium
        quotation_number := quotation_number
        valid_until := valid_until
        status := "draft" }
    ({ db with
        quotations := db.quotations ++ [q]
        nextQuotationId := db.nextQuotationId + 1 },
     ⟨true, "Quotation created successfully!", some q⟩)

/-! ## create_order (tools/create_order_tool.py, lines 26-189) -/

/-- Embedding of `create_order`.  Checks, in source order: quotation
exists; `datetime.now(tz) > valid_until` (strict) fails Expired; stored
status `"expired"` fails; an existing order for this quotation is
returned as an idempotent success; otherwise the new order row is
inserted (payment_status `"pending"` iff the method is `"pending"`,
policy window `[now, now + 365]`, policy_status `"inactive"`) and the
quotation's status is flipped to `"accepted"`. -/
def create_order (db : DB) (now : Nat) (quotation_id : Nat)
    (payment_method : String) (order_number policy_number : String) :
    DB × ToolPayload :=
  match (db.quotations.filter (fun q => q.id == quotation_id)).head? with
  | none =>
    (db, ⟨false, "Error: Quotation not found. Please provide a valid quotation ID.", none⟩)
  | some quotation =>
    -- Check if quotation is still valid
    if now > quotation.valid_until then
      (db, ⟨false, "Error: This quotation expired on " ++
        toString quotation.valid_until ++ ". Please request a new quotation.", none⟩)
    -- Check if quotation status is appropriate
    else if quotation.status == "expired" then
      (db, ⟨false, "Error: This quotation has expired. Please request a new quotation.", none⟩)
    else
      -- Check if order already exists for this quotation
      match (db.orders.filter (fun o => o.quotation_id == quotation_id)).head? with
      | some existing =>
        (db, ⟨true, "An order already exists for this quotation.", some existing⟩)
      | none =>
        -- Calculate policy dates (1 year from today)
        let policy_start := now
        let policy_end := policy_start + 365
        let order_record : Order :=
          { id := db.nextOrderId
            quotation_id := quotation_id
            order_number := order_number
            payment_status :=
              if payment_method == "pending" then "pending" else "awaiting_confirmation"
            payment_method := payment_method
            policy_number := policy_number
            policy_start_date := policy_start
            policy_end_date := policy_end
            policy_status := "inactive"  -- Will become active after payment
            payment_date := none
            updated_at := none }
        ({ db with
            orders := db.orders ++ [order_record]
            -- Update quotation status to accepted
            quotations := db.quotations.map (fun q =>
              if q.id == quotation_id then { q with status := "accepted" } else q)
            nextOrderId := db.nextOrderId + 1 },
         ⟨true, "Order created successfully!", some order_record⟩)

/-! ## update_order_payment (tools/create_order_tool.py, lines 192-295) -/

/-- Embedding of `update_order_payment`: fetch the order by id (NotFound
on absence); build the update record — `payment_status`, `updated_at`,
`payment_date` (the given value, else `now` when the new status is
`"paid"`, else untouched) and, exactly when the new status is `"paid"`,
`policy_status := "active"`; apply it to the matching row. -/
def update_order_payment (db : DB) (now : Nat) (order_id : Nat)
    (payment_status : String) (payment_date : Option Nat) : DB × ToolPayload :=
  match (db.orders.filter (fun o => o.id == order_id)).head? with
  | none =>
    (db, ⟨false, "Error: Order not found.", none⟩)
  | some _ =>
    let apply := fun (o : Order) =>
      { o with
        payment_status := payment_status
        updated_at := some now
        payment_date :=
          match payment_date with
          | some d => some d
          | none => if payment_status == "paid" then some now else o.payment_date
        -- If payment is confirmed, activate the policy
        policy_status :=
          if payment_status == "paid" then "active" else o.policy_status }
    let orders := db.orders.map (fun o => if o.id == order_id then apply o else o)
    let updated := (orders.filter (fun o => o.id == order_id)).head?
    ({ db with orders := orders },
     ⟨true, "Payment status updated successfully!", updated⟩)

/-! ## get_order_status (tools/create_order_tool.py, lines 298-360) -/

/-- Embedding of `get_order_status`: a read-only lookup by order number;
returns the order (joined with its quotation in the source) or a
NotFound payload.  It never modifies the store. -/
def get_order_status (db : DB) (order_number : String) : ToolPayload :=
  match (db.orders.filter (fun o => o.order_number == order_number)).head? with
  | none =>
    ⟨false, "Order " ++ order_number ++ " not found. Please check the order number and try again.", none⟩
  | some o => ⟨true, "Order found.", some o⟩

/-! ## Operation traces over the store

The only writers of the `orders` table in the repository are the tools
above (`main.py` writes only `chat_sessions`; the ingestion script writes
only `policy_documents.embedding`).  A trace is a list of tool
invocations; running it threads the store through the embeddings above.
`runOps` additionally accumulates, as ghost state for stating the
activation invariant, the ids of orders that have at some point received
a successful `update_order_payment` with status `"paid"`. -/

inductive Op where
  | createQuotation (now : Nat) (sid : String) (cid pid : Nat)
      (name email phone : Option String) (qnum : String)
  | createOrder (now : Nat) (qid : Nat) (pm : String) (onum pnum : String)
  | updatePayment (now : Nat) (oid : Nat) (ps : String) (pd : Option Nat)
  | getStatus (onum : String)
deriving Repr

/-- One trace step: apply the tool, and record the target order id when a
`"paid"` payment update found its order. -/
def stepOp (s : DB × List Nat) : Op → DB × List Nat
  | .createQuotation now sid cid pid name email phone qnum =>
    ((create_quotation s.1 now sid cid pid name email phone qnum).1, s.2)
  | .createOrder now qid pm onum pnum =>
    ((create_order s.1 now qid pm onum pnum).1, s.2)
  | .updatePayment now oid ps pd =>
    ((update_order_payment s.1 now oid ps pd).1,
     if ps == "paid" &&
        !((s.1.orders.filter (fun o => o.id == oid)).head?).isNone
     then oid :: s.2 else s.2)
  | .getStatus _ => s

def runOps (s : DB × List Nat) (ops : List Op) : DB × List Nat :=
  ops.foldl stepOp s

/-- An initial store: reference data and quotations may be arbitrary, no
orders exist yet. -/
def initDB (view : List ViewRow) (quotations : List Quotation)
    (nextQuotationId : Nat) : DB :=
  { view := view, quotations := quotations, orders := [],
    nextQuotationId := nextQuotationId, nextOrderId := 0 }

/-! ## Chat persistence (main.py)

`chat` (lines 99-151) computes the final reply and then saves the user
message and the AI reply unconditionally (lines 135-138);
`_stream_agent_response` (lines 154-214) saves the same two messages but
only under `if ai_reply:` (lines 205-210), i.e. only when the
accumulated final text is non-empty. -/

structure ChatMsg where
  role : String
  message : String
deriving Repr, DecidableEq

/-- Messages appended to the session by the non-streaming `chat` endpoint
on successful completion (no emptiness guard in the source). -/
def chat_save (session : List ChatMsg) (userMsg aiReply : String) :
    List ChatMsg :=
  session ++ [⟨"user", userMsg⟩, ⟨"ai", aiReply⟩]

/-- Messages appended by the streaming path on successful completion:
guarded by Python truthiness of the accumulated reply. -/
def stream_save (session : List ChatMsg) (userMsg aiReply : String) :
    List ChatMsg :=
  if !(aiReply == "") then session ++ [⟨"user", userMsg⟩, ⟨"ai", aiReply⟩]
  else session

/-! ## Embedding truncation (ingest_embeddings.py / policy_rag_tool.py)

Vector components are opaque to the length property; they are modelled as
integers. -/

def VECTOR_DIMENSIONS : Nat := 2000

/-- Ingestion-side truncation: `embedding[:VECTOR_DIMENSIONS]`
(ingest_embeddings.py line 138). -/
def ingestTrim (embedding : List Int) : List Int :=
  embedding.take VECTOR_DIMENSIONS

/-- Query-side truncation: `query_embedding[:2000]`
(tools/policy_rag_tool.py line 48). -/
def queryTrim (query_embedding : List Int) : List Int :=
  query_embedding.take 2000

/-! ## Embedding ingestion pipeline (ingest_embeddings.py)

The embedding provider is a function from the batch texts and the attempt
number to either the embeddings or an error.  `time.sleep(attempt * 2.0)`
is recorded as the natural number of seconds `attempt * 2`. -/

def BATCH_SIZE : Nat := 5
def MAX_RETRIES : Nat := 3

structure PolicyDoc where
  id : String
  content : String
deriving Repr, DecidableEq

abbrev Provider := List String → Nat → Except String (List (List Int))

/-- Embedding of `embed_with_retry` (lines 61-70): attempts
`attempt, attempt+1, ..., retries`; re-raises on the final attempt;
otherwise sleeps `attempt * 2` seconds and retries.  Returns the outcome
together with the chronological list of sleeps performed. -/
def embedAux (provider : Provider) (texts : List String) (retries : Nat)
    (attempt : Nat) : Except String (List (List Int)) × List Nat :=
  match provider texts attempt with
  | .ok v => (.ok v, [])
  | .error e =>
    if h : retries ≤ attempt then (.error e, [])
    else
      let rest := embedAux provider texts retries (attempt + 1)
      (rest.1, attempt * 2 :: rest.2)
termination_by retries - attempt

def embed_with_retry (provider : Provider) (texts : List String) :
    Except String (List (List Int)) × List Nat :=
  embedAux provider texts MAX_RETRIES 1

/-- `range(0, len(docs), BATCH_SIZE)` batching of the document list. -/
def batched : List PolicyDoc → List (List PolicyDoc)
  | [] => []
  | d :: rest =>
    (d :: rest).take BATCH_SIZE :: batched ((d :: rest).drop BATCH_SIZE)
termination_by l => l.length
decreasing_by
  simp [List.length_drop, BATCH_SIZE]
  omega

/-- Outcome of one run of `main` in ingest_embeddings.py, restricted to
the observable effects the spec talks about: the success counter, the
failed document ids, the `update_embedding` writes performed (document
id, trimmed vector), and the process exit code. -/
structure IngestOutcome where
  succeeded : Nat
  failed_ids : List String
  updates : List (String × List Int)
  exit_code : Nat
deriving Repr, DecidableEq

/-- The body of the batch loop of `main` (lines 127-151) for one batch:
on a (post-retry) successful embedding call, each document is updated
with its vector truncated to `VECTOR_DIMENSIONS`; on a permanently
failed call, every id of this batch is appended to `failed_ids`. -/
def processBatch (provider : Provider) (acc : Nat × List String × List (String × List Int))
    (batch : List PolicyDoc) : Nat × List String × List (String × List Int) :=
  let texts := batch.map (fun d => d.content)
  match (embed_with_retry provider texts).1 with
  | .ok embeddings =>
    let pairs := batch.zip embeddings
    (acc.1 + pairs.length,
     acc.2.1,
     acc.2.2 ++ pairs.map (fun p => (p.1.id, p.2.take VECTOR_DIMENSIONS)))
  | .error _ =>
    (acc.1, acc.2.1 ++ batch.map (fun d => d.id), acc.2.2)

/-- Embedding of `main` (lines 87-156) from the fetched document list
onward: process the batches in order, then `sys.exit(1)` iff any
document id was recorded as failed. -/
def runIngest (provider : Provider) (docs : List PolicyDoc) : IngestOutcome :=
  let acc := (batched docs).foldl (processBatch provider) (0, [], [])
  { succeeded := acc.1
    failed_ids := acc.2.1
    updates := acc.2.2
    exit_code := if acc.2.1.isEmpty then 0 else 1 }

/-! ## Tool-orchestration loop (agent.py)

`create_agent_executor` (agent.py lines 46-88) delegates the actual
model-tool loop to `create_react_agent` of the langgraph library, whose
body is not part of this repository. -/

inductive AgentStep where
  | final (text : String)
  | toolCalls (names : List String)
deriving Repr, DecidableEq

inductive LoopResult where
  | completed (text : String) (rounds : Nat)
  | couldNotComplete (rounds : Nat)
deriving Repr, DecidableEq

/-- Modelled from the spec: the maximum number of model-tool rounds of
the orchestration loop; the loop body lives in the langgraph library
(`create_react_agent`), not under `src/`, so the bound is taken from the
specification. -/
def MAX_AGENT_ROUNDS : Nat := 8

/-- Modelled from the spec: one round of the orchestration loop asks the
model capability for the next step; final text ends the loop, tool calls
consume a round; exhausting the round budget surfaces a
"could not complete" result instead of looping indefinitely. -/
def agentLoopAux (model : Nat → AgentStep) (round : Nat) :
    Nat → LoopResult
  | 0 => .couldNotComplete (round - 1)
  | n + 1 =>
    match model round with
    | .final t => .completed t round
    | .toolCalls _ => agentLoopAux model (round + 1) n

/-- Modelled from the spec: the bounded tool-orchestration loop, run for
at most `MAX_AGENT_ROUNDS` rounds starting at round 1. -/
def runAgentLoop (model : Nat → AgentStep) : LoopResult :=
  agentLoopAux model 1 MAX_AGENT_ROUNDS

/-! ## Exception flow of the tools

The pure embeddings above describe the tools when every store/provider
call returns normally.  The definitions below embed, in the `Except`
monad, which external calls of each tool sit inside a `try/except` block
in the source and which do not: an `Except.error` stands for a raised
exception, and a result of `Except.error` for the whole tool means the
exception propagates to the orchestration loop. -/

/-- A tool's JSON payload as seen by the loop: the `success` field is
`none` when the source payload carries no `success` key at all (as in
the two search tools). -/
structure RawPayload where
  success : Option Bool
  result : String
deriving Repr, DecidableEq

/-- Embedding of the exception flow of `search_policy_documents`
(tools/policy_rag_tool.py lines 18-92): the embedding call and the
`match_documents` RPC are not wrapped in any `try/except`, so an
exception in either propagates; and neither result payload carries a
`success` key. -/
def search_policy_documentsE (embedQuery : Except String (List Int))
    (rpc : List Int → Except String (List String)) :
    Except String RawPayload := do
  let query_embedding ← embedQuery
  let trimmed := query_embedding.take 2000
  let docs ← rpc trimmed
  if docs.isEmpty then
    pure ⟨none, "No relevant policy documents found for this query."⟩
  else
    pure ⟨none, "Found " ++ toString docs.length ++ " relevant policy document(s)."⟩

/-- Embedding of the exception flow of `create_order`
(tools/create_order_tool.py lines 26-189): the quotation fetch and the
existing-order check run before the `try` block (lines 55 and 88), so an
exception there propagates; only the insert of the order row and the
quotation-status update (lines 132-181) are guarded, an exception there
being caught and returned as a `success: false` payload. -/
def create_orderE (fetchQuotation : Except String (Option Quotation))
    (fetchExisting : Except String (List Order))
    (insertOrder : Except String Order) (updateQuotation : Except String Unit)
    (now : Nat) : Except String RawPayload := do
  let qOpt ← fetchQuotation
  match qOpt with
  | none =>
    pure ⟨some false, "Error: Quotation not found. Please provide a valid quotation ID."⟩
  | some quotation =>
    if now > quotation.valid_until then
      pure ⟨some false, "Error: This quotation expired on " ++
        toString quotation.valid_until ++ ". Please request a new quotation."⟩
    else if quotation.status == "expired" then
      pure ⟨some false, "Error: This quotation has expired. Please request a new quotation."⟩
    else do
      let existing ← fetchExisting
      if !existing.isEmpty then
        pure ⟨some true, "An order already exists for this quotation."⟩
      else
        match (do
            let _ ← insertOrder
            let _ ← updateQuotation :
            Except String Unit) with
        | .ok _ => pure ⟨some true, "Order created successfully!"⟩
        | .error e => pure ⟨some false, "Error creating order: " ++ e⟩

/-- Embedding of the exception flow of `search_quotation_details`
(tools/quotation_db_tool.py lines 16-125): no `try/except` anywhere; any
exception raised by a store query propagates, and even its normal error
payload (the validation message) carries no `success` key.  The store
queries of the six attempts are summarised by one fallible query
function. -/
def search_quotation_detailsE (anyTruthy : Bool)
    (query : Except String (List ViewRow)) : Except String RawPayload := do
  if !anyTruthy then
    pure ⟨none, "Error: You must provide at least one of brand, model, sub_model, or year."⟩
  else do
    let _ ← query
    pure ⟨none, "Found quotation details."⟩

/-! ## Spec-side decomposition of the ingestion run

Per-batch views of the batch loop, used to state that a permanently
failed batch marks exactly its own documents and that batches are
processed independently. -/

def batchFailedIds (provider : Provider) (b : List PolicyDoc) : List String :=
  match (embed_with_retry provider (b.map (fun d => d.content))).1 with
  | .ok _ => []
  | .error _ => b.map (fun d => d.id)

def batchUpdates (provider : Provider) (b : List PolicyDoc) :
    List (String × List Int) :=
  match (embed_with_retry provider (b.map (fun d => d.content))).1 with
  | .ok es => (b.zip es).map (fun p => (p.1.id, p.2.take VECTOR_DIMENSIONS))
  | .error _ => []

def batchSucceeded (provider : Provider) (b : List PolicyDoc) : Nat :=
  match (embed_with_retry provider (b.map (fun d => d.content))).1 with
  | .ok es => (b.zip es).length
  | .error _ => 0

/-! ## Trace invariant for policy activation -/

/-- Invariant relating a store and the ghost list of order ids that have
received a successful `"paid"` payment update: ids are below the
allocation counter, and an order is active exactly when its id is in the
ghost list. -/
def ordersInv (db : DB) (paid : List Nat) : Prop :=
  (∀ o ∈ db.orders, o.id < db.nextOrderId) ∧
  (∀ p ∈ paid, p < db.nextOrderId) ∧
  (∀ o ∈ db.orders, (o.policy_status = "active" ↔ o.id ∈ paid))

/-! ## Concrete sample data for witnesses and counterexamples -/

def hondaCivic : ViewRow :=
  { car_model_id := 1, plan_id := 1, brand := "Honda", model := "Civic",
    sub_model := "e:HEV RS", year := 2024, car_estimated_price := 1699000,
    plan_type := "Type 1", plan_name := "Premium Plan",
    insurer_name := "Zeus Insurance", base_premium := 45000, deductible := 5000 }

def hondaCity : ViewRow :=
  { car_model_id := 2, plan_id := 1, brand := "Honda", model := "City",
    sub_model := "SV", year := 2023, car_estimated_price := 700000,
    plan_type := "Type 1", plan_name := "Premium Plan",
    insurer_name := "Zeus Insurance", base_premium := 20000, deductible := 3000 }

def sampleView : List ViewRow := [hondaCivic, hondaCity]

def sampleQuotation : Quotation :=
  { id := 1, session_id := "s1", car_model_id := 1, plan_id := 1,
    customer_name := some "A", customer_email := none, customer_phone := none,
    car_estimated_price := 1699000, base_premium := 45000, deductible := 5000,
    total_premium := 45000, quotation_number := "QT-20260101-AAAA",
    valid_until := 100, status := "draft" }

/-- A store holding one draft quotation (id 1, valid until day 100) and
no orders. -/
def dbQ : DB :=
  { view := sampleView, quotations := [sampleQuotation], orders := [],
    nextQuotationId := 2, nextOrderId := 0 }

def sampleOrder : Order :=
  { id := 0, quotation_id := 1, order_number := "ORD-20260101-AAAA",
    payment_status := "pending", payment_method := "pending",
    policy_number := "POL-20260101-AAAA", policy_start_date := 50,
    policy_end_date := 415, policy_status := "inactive",
    payment_date := none, updated_at := none }

/-- The store after an order was created for quotation 1 on day 50. -/
def dbQO : DB :=
  { view := sampleView,
    quotations := [{ sampleQuotation with status := "accepted" }],
    orders := [sampleOrder], nextQuotationId := 2, nextOrderId := 1 }

/-- A trace: create an order for quotation 1 on day 50, then confirm its
payment on day 60. -/
def sampleOps : List Op :=
  [Op.createOrder 50 1 "pending" "ORD-20260101-AAAA" "POL-20260101-AAAA",
   Op.updatePayment 60 0 "paid" none]

/-- The order produced by `sampleOps`: created inactive, then activated
by the paid update on day 60. -/
def samplePaidOrder : Order :=
  { id := 0, quotation_id := 1, order_number := "ORD-20260101-AAAA",
    payment_status := "paid", payment_method := "pending",
    policy_number := "POL-20260101-AAAA", policy_start_date := 50,
    policy_end_date := 415, policy_status := "active",
    payment_date := some 60, updated_at := some 60 }

/-- The quotation created by `create_quotation dbQ 70 ...` for car 1 and
plan 1 (the Honda Civic row). -/
def sampleCreatedQuotation : Quotation :=
  { id := 2, session_id := "s1", car_model_id := 1, plan_id := 1,
    customer_name := none, customer_email := none, customer_phone := none,
    car_estimated_price := 1699000, base_premium := 45000, deductible := 5000,
    total_premium := 45000, quotation_number := "QT-20260101-BBBB",
    valid_until := 100, status := "draft" }

/-- An embedding provider that fails on every attempt. -/
def failingProvider : Provider := fun _ _ => Except.error "boom"

/-- Six documents, spanning two ingestion batches of size 5. -/
def sampleDocs : List PolicyDoc :=
  [⟨"d1", "c1"⟩, ⟨"d2", "c2"⟩, ⟨"d3", "c3"⟩, ⟨"d4", "c4"⟩, ⟨"d5", "c5"⟩,
   ⟨"d6", "c6"⟩]

/-- A model capability that requests a tool call on every round and never
returns final text. -/
def stubbornModel : Nat → AgentStep :=
  fun _ => AgentStep.toolCalls ["search_quotation_details"]

end Zeus

namespace Zeus

/-! # Helper lemmas -/

theorem ordersInv_congr (db db' : DB) (paid : List Nat)
    (ho : db'.orders = db.orders) (hn : db'.nextOrderId = db.nextOrderId)
    (h : ordersInv db paid) : ordersInv db' paid := by
  obtain ⟨h1, h2, h3⟩ := h
  refine ⟨?_, ?_, ?_⟩
  · intro o hmem; rw [ho] at hmem; rw [hn]; exact h1 o hmem
  · intro p hp; rw [hn]; exact h2 p hp
  · intro o hmem; rw [ho] at hmem; exact h3 o hmem

theorem create_quotation_keeps (db : DB) (now : Nat) (sid : String)
    (cid pid : Nat) (cn ce cp : Option String) (qn : String) :
    (create_quotation db now sid cid pid cn ce cp qn).1.orders = db.orders ∧
    (create_quotation db now sid cid pid cn ce cp qn).1.nextOrderId =
      db.nextOrderId := by
  unfold create_quotation
  cases hv : (db.view.filter (fun r => r.car_model_id == cid && r.plan_id == pid)).head? <;>
    simp [hv]

theorem create_order_inv (db : DB) (paid : List Nat) (now qid : Nat)
    (pm onum pnum : String) (h : ordersInv db paid) :
    ordersInv (create_order db now qid pm onum pnum).1 paid := by
  obtain ⟨h1, h2, h3⟩ := h
  unfold create_order
  cases hf : (db.quotations.filter (fun x => x.id == qid)).head? with
  | none => exact ⟨h1, h2, h3⟩
  | some q =>
    dsimp only
    by_cases hgt : now > q.valid_until
    · rw [if_pos hgt]; exact ⟨h1, h2, h3⟩
    · rw [if_neg hgt]
      by_cases hst : (q.status == "expired") = true
      · rw [if_pos hst]; exact ⟨h1, h2, h3⟩
      · rw [if_neg hst]
        cases he : (db.orders.filter (fun o => o.quotation_id == qid)).head? with
        | some ex => exact ⟨h1, h2, h3⟩
        | none =>
          refine ⟨?_, ?_, ?_⟩
          · intro o ho
            simp only [List.mem_append, List.mem_singleton] at ho
            rcases ho with ho | ho
            · exact Nat.lt_succ_of_lt (h1 o ho)
            · subst ho; exact Nat.lt_succ_self _
          · intro p hp
            exact Nat.lt_succ_of_lt (h2 p hp)
          · intro o ho
            simp only [List.mem_append, List.mem_singleton] at ho
            rcases ho with ho | ho
            · exact h3 o ho
            · subst ho
              constructor
              · intro habs; simp at habs
              · intro hmem
                exact absurd (h2 _ hmem) (Nat.lt_irrefl _)

theorem update_payment_inv (db : DB) (paid : List Nat) (now oid : Nat)
    (ps : String) (pd : Option Nat) (h : ordersInv db paid) :
    ordersInv (update_order_payment db now oid ps pd).1
      (if ps == "paid" &&
          !((db.orders.filter (fun o => o.id == oid)).head?).isNone
       then oid :: paid else paid) := by
  obtain ⟨h1, h2, h3⟩ := h
  unfold update_order_payment
  cases he : (db.orders.filter (fun o => o.id == oid)).head? with
  | none =>
    simp only [Option.isNone_none, Bool.not_true, Bool.and_false, if_false]
    exact ⟨h1, h2, h3⟩
  | some o0 =>
    have hfmem : o0 ∈ db.orders.filter (fun o => o.id == oid) :=
      List.mem_of_mem_head? (by rw [he]; exact Option.mem_some_self o0)
    have ho0mem : o0 ∈ db.orders := (List.mem_filter.mp hfmem).1
    have ho0id : o0.id = oid := by
      have := (List.mem_filter.mp hfmem).2
      simpa using this
    simp only [Option.isNone_some, Bool.not_false, Bool.and_true]
    by_cases hps : (ps == "paid") = true
    · rw [if_pos hps]
      refine ⟨?_, ?_, ?_⟩
      · intro o ho
        simp only [List.mem_map] at ho
        obtain ⟨o', ho', rfl⟩ := ho
        by_cases hid : (o'.id == oid) = true
        · simp only [hid, if_true]
          simpa using h1 o' ho'
        · simp [hid]
          exact h1 o' ho'
      · intro p hp
        rcases List.mem_cons.mp hp with rfl | hp
        · rw [← ho0id]; exact h1 o0 ho0mem
        · exact h2 p hp
      · intro o ho
        simp only [List.mem_map] at ho
        obtain ⟨o', ho', rfl⟩ := ho
        by_cases hid : (o'.id == oid) = true
        · have hid' : o'.id = oid := by simpa using hid
          simp [hid, hps, hid', List.mem_cons]
        · have hid' : o'.id ≠ oid := by simpa using hid
          simp only [hid]
          simp only [Bool.false_eq_true, if_false]
          rw [h3 o' ho']
          simp [List.mem_cons, hid']
    · rw [if_neg hps]
      refine ⟨?_, ?_, ?_⟩
      · intro o ho
        simp only [List.mem_map] at ho
        obtain ⟨o', ho', rfl⟩ := ho
        by_cases hid : (o'.id == oid) = true
        · simp only [hid, if_true]
          simpa using h1 o' ho'
        · simp [hid]
          exact h1 o' ho'
      · exact h2
      · intro o ho
        simp only [List.mem_map] at ho
        obtain ⟨o', ho', rfl⟩ := ho
        by_cases hid : (o'.id == oid) = true
        · simp only [hid, if_true]
          simp only [hps, if_false]
          exact h3 o' ho'
        · simp [hid]
          exact h3 o' ho'

theorem stepOp_inv (s : DB × List Nat) (op : Op) (h : ordersInv s.1 s.2) :
    ordersInv (stepOp s op).1 (stepOp s op).2 := by
  obtain ⟨db, paid⟩ := s
  cases op with
  | createQuotation now sid cid pid name email phone qnum =>
    exact ordersInv_congr db _ paid
      (create_quotation_keeps db now sid cid pid name email phone qnum).1
      (create_quotation_keeps db now sid cid pid name email phone qnum).2 h
  | createOrder now qid pm onum pnum =>
    exact create_order_inv db paid now qid pm onum pnum h
  | updatePayment now oid ps pd =>
    exact update_payment_inv db paid now oid ps pd h
  | getStatus onum => exact h

theorem runOps_inv (ops : List Op) (s : DB × List Nat) (h : ordersInv s.1 s.2) :
    ordersInv (runOps s ops).1 (runOps s ops).2 := by
  induction ops generalizing s with
  | nil => simpa [runOps] using h
  | cons op rest ih =>
    have hstep : runOps s (op :: rest) = runOps (stepOp s op) rest := by
      simp [runOps]
    rw [hstep]
    exact ih (stepOp s op) (stepOp_inv s op h)

theorem foldl_processBatch (provider : Provider)
    (bs : List (List PolicyDoc))
    (acc : Nat × List String × List (String × List Int)) :
    bs.foldl (processBatch provider) acc =
      (acc.1 + (bs.map (batchSucceeded provider)).sum,
       acc.2.1 ++ bs.flatMap (batchFailedIds provider),
       acc.2.2 ++ bs.flatMap (batchUpdates provider)) := by
  induction bs generalizing acc with
  | nil => simp
  | cons b rest ih =>
    rw [List.foldl_cons, ih]
    unfold processBatch batchSucceeded batchFailedIds batchUpdates
    cases hr : (embed_with_retry provider (b.map (fun d => d.content))).1 with
    | ok es => simp [hr, Nat.add_assoc]
    | error e => simp [hr]

/-! # Claim theorems -/

/-- C1 (amended): every quotation row stored by `create_quotation` has
`valid_until = creation time + 30 days`; and a `create_order` call
against a quotation with `now > valid_until` (strictly after — the
source check `datetime.now(tz) > valid_until` is strict, so at
`now = valid_until` the order is still created, see the
counterexample) fails with `success = false` and leaves the orders
table unchanged. -/
theorem c1_quotation_validity_expiry :
    (∀ (db : DB) (now : Nat) (sid : String) (cid pid : Nat)
        (cn ce cp : Option String) (qn : String) (q : Quotation),
        q ∈ (create_quotation db now sid cid pid cn ce cp qn).1.quotations →
        q ∉ db.quotations → q.valid_until = now + 30) ∧
    (∀ (db : DB) (now qid : Nat) (pm onum pnum : String) (q : Quotation),
        (db.quotations.filter (fun x => x.id == qid)).head? = some q →
        now > q.valid_until →
        (create_order db now qid pm onum pnum).2.success = false ∧
        (create_order db now qid pm onum pnum).1.orders = db.orders) := by
  constructor
  · intro db now sid cid pid cn ce cp qn q hq hnot
    unfold create_quotation at hq
    cases hv : (db.view.filter (fun r => r.car_model_id == cid && r.plan_id == pid)).head? with
    | none => rw [hv] at hq; exact absurd hq hnot
    | some details =>
      rw [hv] at hq
      dsimp only at hq
      simp only [List.mem_append, List.mem_singleton] at hq
      rcases hq with hq | hq
      · exact absurd hq hnot
      · subst hq; rfl
  · intro db now qid pm onum pnum q hf hgt
    unfold create_order
    rw [hf]
    simp [hgt]

/-- C1 witness: for the concrete store `dbQ`, a quotation created on day
70 carries `valid_until = 100 = 70 + 30`, and a `create_order` call on
day 131, strictly after `valid_until = 100`, fails and creates no
order row. -/
theorem c1_quotation_validity_expiry_witness :
    sampleCreatedQuotation.valid_until = 70 + 30 ∧
    ((create_order dbQ 131 1 "pending" "ORD-20260511-CCCC" "POL-20260511-CCCC").2.success = false ∧
     (create_order dbQ 131 1 "pending" "ORD-20260511-CCCC" "POL-20260511-CCCC").1.orders = dbQ.orders) :=
  ⟨c1_quotation_validity_expiry.1 dbQ 70 "s1" 1 1 none none none
      "QT-20260101-BBBB" sampleCreatedQuotation (by decide) (by decide),
   c1_quotation_validity_expiry.2 dbQ 131 1 "pending" "ORD-20260511-CCCC"
      "POL-20260511-CCCC" sampleQuotation (by decide) (by decide)⟩

/-- C1 counterexample: the claim as stated requires every `create_order`
call with `now ≥ valid_until` to fail, but the source check is the
strict `datetime.now(tz) > valid_until`: at `now = valid_until = 100`
against the draft quotation of `dbQ` the call succeeds and inserts an
order row. -/
theorem c1_expiry_boundary_counterexample :
    100 ≥ sampleQuotation.valid_until ∧
    (create_order dbQ 100 1 "pending" "ORD-20260411-DDDD" "POL-20260411-DDDD").2.success = true ∧
    (create_order dbQ 100 1 "pending" "ORD-20260411-DDDD" "POL-20260411-DDDD").1.orders ≠ [] := by
  decide

/-- C2 (amended): when the quotation exists, is not past its validity
and not marked expired, a `create_order` call against a quotation that
already has an order returns the existing order as an idempotent
success and leaves the store unchanged; and regardless of validity, a
call against a quotation that already has an order never inserts a
second order row (the expiry check precedes the duplicate check, so a
second call made after `valid_until` returns an Expired failure instead
of the existing order — see the counterexample). -/
theorem c2_create_order_idempotent :
    (∀ (db : DB) (now qid : Nat) (pm onum pnum : String) (q : Quotation)
        (ex : Order),
        (db.quotations.filter (fun x => x.id == qid)).head? = some q →
        ¬ now > q.valid_until → q.status ≠ "expired" →
        (db.orders.filter (fun o => o.quotation_id == qid)).head? = some ex →
        create_order db now qid pm onum pnum =
          (db, ⟨true, "An order already exists for this quotation.", some ex⟩)) ∧
    (∀ (db : DB) (now qid : Nat) (pm onum pnum : String),
        db.orders.filter (fun o => o.quotation_id == qid) ≠ [] →
        (create_order db now qid pm onum pnum).1.orders = db.orders) := by
  constructor
  · intro db now qid pm onum pnum q ex hf hvalid hstatus hex
    unfold create_order
    rw [hf]
    dsimp only
    rw [if_neg hvalid]
    rw [if_neg (show ¬ (q.status == "expired") = true by simpa using hstatus)]
    rw [hex]
  · intro db now qid pm onum pnum hex
    unfold create_order
    cases hf : (db.quotations.filter (fun x => x.id == qid)).head? with
    | none => rfl
    | some q =>
      dsimp only
      by_cases hgt : now > q.valid_until
      · simp [hgt]
      · rw [if_neg hgt]
        by_cases hst : (q.status == "expired") = true
        · simp [hst]
        · rw [if_neg hst]
          cases he : (db.orders.filter (fun o => o.quotation_id == qid)).head? with
          | none =>
            exact absurd (List.head?_eq_none_iff.mp he) hex
          | some ex => rfl

/-- C2 witness: against the concrete store `dbQO` (quotation 1 accepted,
order already present) a second `create_order` call on day 60 returns
the existing order as a success and does not change the store. -/
theorem c2_create_order_idempotent_witness :
    create_order dbQO 60 1 "pending" "ORD-20260611-EEEE" "POL-20260611-EEEE" =
      (dbQO, ⟨true, "An order already exists for this quotation.", some sampleOrder⟩) :=
  c2_create_order_idempotent.1 dbQO 60 1 "pending" "ORD-20260611-EEEE"
    "POL-20260611-EEEE" { sampleQuotation with status := "accepted" }
    sampleOrder (by decide) (by decide) (by decide) (by decide)

/-- C2 counterexample: in `dbQO` an order already exists for quotation 1,
yet a second `create_order` call on day 200 (after
`valid_until = 100`) returns `success = false` with no order payload —
not the existing order as a success, refuting the claim as stated. -/
theorem c2_idempotency_counterexample :
    dbQO.orders.filter (fun o => o.quotation_id == 1) ≠ [] ∧
    (create_order dbQO 200 1 "pending" "ORD-20260711-FFFF" "POL-20260711-FFFF").2.success = false ∧
    (create_order dbQO 200 1 "pending" "ORD-20260711-FFFF" "POL-20260711-FFFF").2.order = none := by
  decide

/-- C3: over every trace of tool operations started from a store with no
orders, an order's `policy_status` is `"active"` exactly when a
successful `update_order_payment` with status `"paid"` has been applied
to it; and any order row inserted by `create_order` starts with
`policy_status = "inactive"`. -/
theorem c3_policy_activation :
    (∀ (view : List ViewRow) (quots : List Quotation) (nq : Nat)
        (ops : List Op) (o : Order),
        o ∈ (runOps (initDB view quots nq, []) ops).1.orders →
        (o.policy_status = "active" ↔
          o.id ∈ (runOps (initDB view quots nq, []) ops).2)) ∧
    (∀ (db : DB) (now qid : Nat) (pm onum pnum : String) (o : Order),
        o ∈ (create_order db now qid pm onum pnum).1.orders → o ∉ db.orders →
        o.policy_status = "inactive") := by
  constructor
  · intro view quots nq ops o ho
    have hinit : ordersInv (initDB view quots nq) [] := by
      refine ⟨?_, ?_, ?_⟩ <;> intro x hx <;> simp [initDB] at hx
    exact (runOps_inv ops (initDB view quots nq, []) hinit).2.2 o ho
  · intro db now qid pm onum pnum o ho hnot
    unfold create_order at ho
    cases hf : (db.quotations.filter (fun x => x.id == qid)).head? with
    | none => rw [hf] at ho; exact absurd ho hnot
    | some q =>
      rw [hf] at ho
      dsimp only at ho
      by_cases hgt : now > q.valid_until
      · rw [if_pos hgt] at ho; exact absurd ho hnot
      · rw [if_neg hgt] at ho
        by_cases hst : (q.status == "expired") = true
        · rw [if_pos hst] at ho; exact absurd ho hnot
        · rw [if_neg hst] at ho
          cases he : (db.orders.filter (fun x => x.quotation_id == qid)).head? with
          | some ex => rw [he] at ho; exact absurd ho hnot
          | none =>
            rw [he] at ho
            simp only [List.mem_append, List.mem_singleton] at ho
            rcases ho with ho | ho
            · exact absurd ho hnot
            · subst ho; rfl

/-- C3 witness: running the concrete trace `sampleOps` (create an order,
then confirm payment as paid) yields exactly `samplePaidOrder`, and the
activation equivalence holds for it at this concrete input. -/
theorem c3_policy_activation_witness :
    samplePaidOrder.policy_status = "active" ↔
      samplePaidOrder.id ∈
        (runOps (initDB sampleView [sampleQuotation] 2, []) sampleOps).2 :=
  c3_policy_activation.1 sampleView [sampleQuotation] 2 sampleOps
    samplePaidOrder (by decide)

/-- C4: when brand, model, sub_model (also after year-cleaning) and year
are all truthy and the cascade steps 1-3 produce empty record sets
while step 4 (brand+model only) is non-empty, the search returns
exactly the step-4 record set with the step-4 message — the first
non-empty step, with no step skipped and no merging with the later
brand-only or catalogue steps. -/
theorem c4_cascade_order (view : List ViewRow) (b m s : String) (y : Nat)
    (hb : truthyS (some b) = true) (hm : truthyS (some m) = true)
    (hs : truthyS (some s) = true)
    (hsc : truthyS (some (clean_sub_model s)) = true)
    (hy : truthyN (some y) = true)
    (h1 : run_query view (some b) (some m) (some (clean_sub_model s)) (some y) = [])
    (h2 : run_query view (some b) (some m) (some (clean_sub_model s)) none = [])
    (h3 : run_query view (some b) (some m) none (some y) = [])
    (h4 : run_query view (some b) (some m) none none ≠ []) :
    search_quotation_details view (some b) (some m) (some s) (some y) =
      .found ("Could not match \x27" ++ clean_sub_model s ++
        "\x27 trim. Here are all available variants for " ++ b ++ " " ++ m ++ ".")
        (run_query view (some b) (some m) none none) := by
  unfold search_quotation_details
  simp only [hb, hm, hs, hsc, hy, orEmpty, Bool.true_or, Bool.or_true,
    Bool.not_true, Bool.false_and, Bool.true_and, if_true, if_false,
    Bool.and_self]
  simp [h1, h2, h3, h4, List.isEmpty_iff]

/-- C4 witness: the concrete query brand="Honda", model="Civic",
sub_model="Type S", year=2030 against `sampleView` (where steps 1-3 are
empty) returns the brand+model record set — the Civic row only, before
brand-only (which would also include the City row) is consulted. -/
theorem c4_cascade_order_witness :
    search_quotation_details sampleView (some "Honda") (some "Civic")
        (some "Type S") (some 2030) =
      .found ("Could not match \x27" ++ clean_sub_model "Type S" ++
        "\x27 trim. Here are all available variants for " ++ "Honda" ++ " " ++
        "Civic" ++ ".")
        (run_query sampleView (some "Honda") (some "Civic") none none) :=
  c4_cascade_order sampleView "Honda" "Civic" "Type S" 2030 (by decide)
    (by decide) (by decide) (by decide) (by decide) (by decide) (by decide)
    (by decide) (by decide)

/-- C5: a model capability that never returns final text makes the
orchestration loop terminate exactly at round `MAX_AGENT_ROUNDS = 8`
with the "could not complete" result (the loop itself is modelled from
the spec: its body lives in the langgraph library, not under src/). -/
theorem c5_round_bound (model : Nat → AgentStep)
    (h : ∀ r t, model r ≠ AgentStep.final t) :
    runAgentLoop model = .couldNotComplete MAX_AGENT_ROUNDS := by
  have aux : ∀ (n round : Nat),
      agentLoopAux model round n = .couldNotComplete (round + n - 1) := by
    intro n
    induction n with
    | zero => intro round; rfl
    | succ k ih =>
      intro round
      unfold agentLoopAux
      cases hm : model round with
      | final t => exact absurd hm (h round t)
      | toolCalls c =>
        rw [ih (round + 1)]
        have he : round + 1 + k - 1 = round + (k + 1) - 1 := by omega
        rw [he]
  rw [runAgentLoop, aux]
  rfl

/-- C5 witness: the concrete `stubbornModel`, which requests a tool call
on every round, terminates at exactly 8 rounds with the
"could not complete" result. -/
theorem c5_round_bound_witness :
    runAgentLoop stubbornModel = .couldNotComplete 8 :=
  c5_round_bound stubbornModel (fun r t h => by simp [stubbornModel] at h)

/-- C6 (amended): both the ingestion-side and the query-side truncation
take the first 2000 components, so the stored length is
`min 2000 (native length)` — exactly 2000 whenever the provider returns
at least 2000 components, but shorter if the native dimensionality is
below 2000 (see the counterexample); and the two truncations are the
identical rule. -/
theorem c6_trim_length :
    ∀ e : List Int,
      (ingestTrim e).length = min VECTOR_DIMENSIONS e.length ∧
      queryTrim e = ingestTrim e := by
  intro e
  exact ⟨by simp [ingestTrim, List.length_take], rfl⟩

/-- C6 counterexample: a native embedding of dimensionality 3 is stored
with length 3, not 2000, refuting "length exactly 2000 regardless of
the native dimensionality". -/
theorem c6_trim_counterexample :
    (ingestTrim [1, 2, 3]).length = 3 ∧ (ingestTrim [1, 2, 3]).length ≠ 2000 := by
  decide

/-- C7 (amended): on successful completion both paths append exactly the
two messages, user first then assistant; the streaming path appends
them only when the final text is non-empty (and appends nothing when it
is empty), while the non-streaming path appends them unconditionally,
even for an empty final text (see the counterexample). -/
theorem c7_session_append :
    (∀ (session : List ChatMsg) (u a : String),
        chat_save session u a = session ++ [⟨"user", u⟩, ⟨"ai", a⟩]) ∧
    (∀ (session : List ChatMsg) (u a : String), a ≠ "" →
        stream_save session u a = session ++ [⟨"user", u⟩, ⟨"ai", a⟩]) ∧
    (∀ (session : List ChatMsg) (u : String), stream_save session u "" = session) := by
  refine ⟨fun session u a => rfl, fun session u a h => ?_, fun session u => rfl⟩
  simp [stream_save, h]

/-- C7 witness: on the concrete empty session with the non-empty reply
"hi", the streaming path appends exactly the user message followed by
the assistant message. -/
theorem c7_session_append_witness :
    stream_save [] "hello" "hi" = [⟨"user", "hello"⟩, ⟨"ai", "hi"⟩] :=
  c7_session_append.2.1 [] "hello" "hi" (by decide)

/-- C7 counterexample: the non-streaming path appends the two messages
even when the final text is the empty string, refuting "this append
happens only if the final text produced is non-empty". -/
theorem c7_empty_reply_counterexample :
    chat_save [] "hi" "" = [⟨"user", "hi"⟩, ⟨"ai", ""⟩] ∧
    chat_save [] "hi" "" ≠ [] := by
  decide

/-- C8 (amended): only the insert/update phase of `create_order` (and
its sibling write tools) is guarded by `try/except` and converts an
exception into a `success: false` payload; the initial fetches of
`create_order` and the whole of `search_policy_documents` and
`search_quotation_details` are unguarded, so an exception there
propagates to the orchestration loop (and the search tools' payloads
carry no `success` key at all). -/
theorem c8_exception_flow :
    (∀ (e : String) (rpc : List Int → Except String (List String)),
        search_policy_documentsE (.error e) rpc = .error e) ∧
    (∀ e : String, search_quotation_detailsE true (.error e) = .error e) ∧
    (∀ (e : String) (fe : Except String (List Order))
        (io : Except String Order) (uq : Except String Unit) (now : Nat),
        create_orderE (.error e) fe io uq now = .error e) ∧
    (∀ (q : Quotation) (now : Nat) (e : String),
        ¬ now > q.valid_until → q.status ≠ "expired" →
        create_orderE (.ok (some q)) (.ok []) (.error e) (.ok ()) now =
          .ok ⟨some false, "Error creating order: " ++ e⟩) := by
  refine ⟨fun e rpc => rfl, fun e => rfl, fun e fe io uq now => rfl,
    fun q now e hvalid hstatus => ?_⟩
  unfold create_orderE
  simp only [Bind.bind, Except.bind]
  rw [if_neg hvalid]
  rw [if_neg (show ¬ (q.status == "expired") = true by simpa using hstatus)]
  rfl

/-- C8 witness: for the concrete valid quotation `sampleQuotation`, an
exception raised by the order insert is caught and returned as a
`success: false` payload. -/
theorem c8_exception_flow_witness :
    create_orderE (.ok (some sampleQuotation)) (.ok [])
        (.error "insert failed") (.ok ()) 50 =
      .ok ⟨some false, "Error creating order: " ++ "insert failed"⟩ :=
  c8_exception_flow.2.2.2 sampleQuotation 50 "insert failed" (by decide)
    (by decide)

/-- C8 counterexample: an exception in the embedding call of
`search_policy_documents` propagates out of the tool (its body has no
`try/except`), instead of being returned as a structured
`success: false` payload — refuting the claim as stated. -/
theorem c8_unguarded_counterexample :
    search_policy_documentsE (.error "embedding call failed")
        (fun _ => .ok []) = .error "embedding call failed" := rfl

/-- C9: `embed_with_retry` returns at the first successful attempt,
makes at most 3 attempts with sleeps of `attempt * 2` seconds after
each non-final failure ([2, 4] before attempt 3), and re-raises the
third failure; a permanently failed batch contributes exactly its own
document ids to `failed_ids` while every other batch is still processed
(the run decomposes batch-by-batch); and the exit code is non-zero
exactly when at least one document failed. -/
theorem c9_ingest_retry_and_exit :
    (∀ (provider : Provider) (texts : List String) (v : List (List Int)),
        provider texts 1 = .ok v →
        embed_with_retry provider texts = (.ok v, [])) ∧
    (∀ (provider : Provider) (texts : List String) (e1 e2 : String)
        (v : List (List Int)),
        provider texts 1 = .error e1 → provider texts 2 = .error e2 →
        provider texts 3 = .ok v →
        embed_with_retry provider texts = (.ok v, [2, 4])) ∧
    (∀ (provider : Provider) (texts : List String) (e1 e2 e3 : String),
        provider texts 1 = .error e1 → provider texts 2 = .error e2 →
        provider texts 3 = .error e3 →
        embed_with_retry provider texts = (.error e3, [2, 4])) ∧
    (∀ (provider : Provider) (docs : List PolicyDoc),
        (runIngest provider docs).failed_ids =
          (batched docs).flatMap (batchFailedIds provider) ∧
        (runIngest provider docs).updates =
          (batched docs).flatMap (batchUpdates provider) ∧
        (runIngest provider docs).succeeded =
          ((batched docs).map (batchSucceeded provider)).sum) ∧
    (∀ (provider : Provider) (docs : List PolicyDoc),
        (runIngest provider docs).exit_code ≠ 0 ↔
          (runIngest provider docs).failed_ids ≠ []) := by
  refine ⟨?_, ?_, ?_, ?_, ?_⟩
  · intro provider texts v h
    unfold embed_with_retry MAX_RETRIES
    unfold embedAux
    rw [h]
  · intro provider texts e1 e2 v h1 h2 h3
    unfold embed_with_retry MAX_RETRIES
    unfold embedAux
    rw [h1]
    norm_num
    unfold embedAux
    rw [h2]
    norm_num
    unfold embedAux
    rw [h3]
    exact ⟨rfl, rfl⟩
  · intro provider texts e1 e2 e3 h1 h2 h3
    unfold embed_with_retry MAX_RETRIES
    unfold embedAux
    rw [h1]
    norm_num
    unfold embedAux
    rw [h2]
    norm_num
    unfold embedAux
    rw [h3]
    norm_num
  · intro provider docs
    unfold runIngest
    rw [foldl_processBatch]
    exact ⟨by simp, by simp, by simp⟩
  · intro provider docs
    unfold runIngest
    dsimp only
    by_cases h : ((batched docs).foldl (processBatch provider) (0, [], [])).2.1.isEmpty
    · rw [if_pos h]
      simp [List.isEmpty_iff.mp h]
    · rw [if_neg h]
      constructor
      · intro _
        intro habs
        rw [habs] at h
        exact h rfl
      · intro _
        decide

/-- C9 witness: against a provider failing on every attempt, the retry
helper raises the third error after sleeping 2 then 4 seconds, and the
run over six documents (two batches) exits non-zero exactly because its
failed-ids list is non-empty. -/
theorem c9_ingest_retry_and_exit_witness :
    embed_with_retry failingProvider ["c1"] = (.error "boom", [2, 4]) ∧
    ((runIngest failingProvider sampleDocs).exit_code ≠ 0 ↔
      (runIngest failingProvider sampleDocs).failed_ids ≠ []) :=
  ⟨c9_ingest_retry_and_exit.2.2.1 failingProvider ["c1"] "boom" "boom" "boom"
      rfl rfl rfl,
   c9_ingest_retry_and_exit.2.2.2.2 failingProvider sampleDocs⟩

/-- C10: a call in which every attribute is falsy (None, empty string,
or year 0) returns the "must provide at least one" validation error,
and does so independently of the store contents (so no query can have
influenced it); and in `run_query` an empty-string attribute (or year
0) contributes no filter — the query equals the one with the attribute
absent. -/
theorem c10_falsy_treated_absent :
    (∀ (view view2 : List ViewRow) (b m s : Option String) (y : Option Nat),
        truthyS b = false → truthyS m = false → truthyS s = false →
        truthyN y = false →
        search_quotation_details view b m s y =
          .err "Error: You must provide at least one of brand, model, sub_model, or year." ∧
        search_quotation_details view b m s y =
          search_quotation_details view2 b m s y) ∧
    (∀ (view : List ViewRow) (m s : Option String) (y : Option Nat),
        run_query view (some "") m s y = run_query view none m s y) ∧
    (∀ (view : List ViewRow) (b s : Option String) (y : Option Nat),
        run_query view b (some "") s y = run_query view b none s y) ∧
    (∀ (view : List ViewRow) (b m : Option String) (y : Option Nat),
        run_query view b m (some "") y = run_query view b m none y) ∧
    (∀ (view : List ViewRow) (b m s : Option String),
        run_query view b m s (some 0) = run_query view b m s none) := by
  refine ⟨?_, ?_, ?_, ?_, ?_⟩
  · intro view view2 b m s y hb hm hs hy
    have herr : ∀ v : List ViewRow,
        search_quotation_details v b m s y =
          .err "Error: You must provide at least one of brand, model, sub_model, or year." := by
      intro v
      unfold search_quotation_details
      simp [hb, hm, hs, hy]
    exact ⟨herr view, (herr view).trans (herr view2).symm⟩
  · intro view m s y
    simp [run_query, truthyS]
  · intro view b s y
    simp [run_query, truthyS]
  · intro view b m y
    simp [run_query, truthyS]
  · intro view b m s
    simp [run_query, truthyN]

/-- C10 witness: the concrete all-falsy call (empty brand and model,
absent sub_model, year 0) returns the validation error against
`sampleView` and equally against the empty store. -/
theorem c10_falsy_treated_absent_witness :
    search_quotation_details sampleView (some "") (some "") none (some 0) =
      .err "Error: You must provide at least one of brand, model, sub_model, or year." ∧
    search_quotation_details sampleView (some "") (some "") none (some 0) =
      search_quotation_details [] (some "") (some "") none (some 0) :=
  c10_falsy_treated_absent.1 sampleView [] (some "") (some "") none (some 0)
    (by decide) (by decide) (by decide) (by decide)

end Zeus
